import Mathlib

/-!
Verification of the LoginFacade subsystem (session establishment, teardown,
session-token addressing and group-key caching) against its source.

The facade itself (`createSession`, `createExternalSession`, `_initSession`,
`logout`, `deleteSession`, `getGroupKey`, `_getSessionListId`,
`_getSessionElementId`) is embedded from the source file.  External
collaborators (transport, entity store, event stream) are out of scope per
the specification and are represented by injected outcomes; the
cryptographic primitives (hash, key derivation, key unwrap) are black boxes
per the specification and are represented by abstract function parameters.
-/

set_option autoImplicit false

/-- Modelled from the spec: the fixed generated-identifier byte length
(the `GENERATED_ID_BYTES_LENGTH` constant imported by the source from the
entity-function module, which is outside the provided sources).  Generated
identifiers are nine bytes long. -/
def GENERATED_ID_BYTES_LENGTH : Nat := 9

/-- Modelled from the spec: value of a character in the standard base64
alphabet, `none` for a character outside the alphabet.  The base64
encoding/decoding helpers live in the repository encoding module, which is
outside the provided sources. -/
def b64CharVal (ch : Char) : Option Nat :=
  if 'A' ≤ ch ∧ ch ≤ 'Z' then some (ch.toNat - 65)
  else if 'a' ≤ ch ∧ ch ≤ 'z' then some (ch.toNat - 97 + 26)
  else if '0' ≤ ch ∧ ch ≤ '9' then some (ch.toNat - 48 + 52)
  else if ch = '+' then some 62
  else if ch = '/' then some 63
  else none

/-- Modelled from the spec: character of a 6-bit value in the standard
base64 alphabet. -/
def b64Char (v : Nat) : Char :=
  if v < 26 then Char.ofNat (65 + v)
  else if v < 52 then Char.ofNat (97 + v - 26)
  else if v < 62 then Char.ofNat (48 + v - 52)
  else if v = 62 then '+' else '/'

/-- Modelled from the spec: character of a 6-bit value in the extended
("base64Ext") identifier alphabet `0-9 A-Z a-z - _`, which keeps the
numeric order of the values. -/
def b64ExtChar (v : Nat) : Char :=
  if v < 10 then Char.ofNat (48 + v)
  else if v < 36 then Char.ofNat (65 + v - 10)
  else if v < 62 then Char.ofNat (97 + v - 36)
  else if v = 62 then '-' else '_'

/-- Modelled from the spec: turn a list of 6-bit values (a base64 string
without padding) into the encoded bytes; `none` when a single value is
left over, which no byte string produces. -/
def decodeB64Vals : List Nat → Option (List Nat)
  | [] => some []
  | [_] => none
  | [a, b] => some [a * 4 + b / 16]
  | [a, b, c] => some [a * 4 + b / 16, (b % 16) * 16 + c / 4]
  | a :: b :: c :: d :: rest =>
    (decodeB64Vals rest).map fun tl =>
      (a * 4 + b / 16) :: ((b % 16) * 16 + c / 4) :: ((c % 4) * 64 + d) :: tl

/-- Modelled from the spec: remove the trailing `=` padding of a base64
string; at most two padding characters are legal. -/
def stripPadding (cs : List Char) : Option (List Char) :=
  let pad := (cs.reverse.takeWhile (· = '=')).length
  if pad > 2 then none else some (cs.take (cs.length - pad))

/-- Modelled from the spec: strict base64 decoding (the `base64ToUint8Array`
helper of the repository encoding module): the length must be a multiple of
four, padding at most two characters, and every remaining character must
belong to the base64 alphabet; otherwise decoding fails. -/
def base64ToUint8Array (s : String) : Option (List Nat) :=
  let cs := s.data
  if cs.length % 4 ≠ 0 then none
  else
    match stripPadding cs with
    | none => none
    | some main => (main.mapM b64CharVal).bind decodeB64Vals

/-- Modelled from the spec: conversion of a url-safe base64 string to
standard base64 (the `base64UrlToBase64` helper): `-` becomes `+`, `_`
becomes `/`, and padding is restored; a length of 1 modulo 4 is illegal. -/
def base64UrlToBase64 (s : String) : Option String :=
  let cs := s.data.map fun ch => if ch = '-' then '+' else if ch = '_' then '/' else ch
  match cs.length % 4 with
  | 0 => some ⟨cs⟩
  | 2 => some ⟨cs ++ ['=', '=']⟩
  | 3 => some ⟨cs ++ ['=']⟩
  | _ => none

/-- Modelled from the spec: base64 encoding of a byte list (the
`uint8ArrayToBase64` helper). -/
def encodeB64Bytes : List Nat → List Char
  | [] => []
  | [b1] => [b64Char (b1 / 4), b64Char (b1 % 4 * 16), '=', '=']
  | [b1, b2] => [b64Char (b1 / 4), b64Char (b1 % 4 * 16 + b2 / 16), b64Char (b2 % 16 * 4), '=']
  | b1 :: b2 :: b3 :: rest =>
    b64Char (b1 / 4) :: b64Char (b1 % 4 * 16 + b2 / 16) ::
      b64Char (b2 % 16 * 4 + b3 / 64) :: b64Char (b3 % 64) :: encodeB64Bytes rest

/-- Modelled from the spec: base64 encoding of a byte list as a string. -/
def uint8ArrayToBase64 (bs : List Nat) : String := ⟨encodeB64Bytes bs⟩

/-- Modelled from the spec: conversion of standard base64 to url-safe
base64 (the `base64ToBase64Url` helper): `+` becomes `-`, `/` becomes `_`,
padding is dropped. -/
def base64ToBase64Url (s : String) : String :=
  ⟨(s.data.filter (· ≠ '=')).map fun ch =>
    if ch = '+' then '-' else if ch = '/' then '_' else ch⟩

/-- Modelled from the spec: conversion of standard base64 to the extended
identifier alphabet (the `base64ToBase64Ext` helper); padding is dropped. -/
def base64ToBase64Ext (s : String) : String :=
  ⟨s.data.filterMap fun ch => (b64CharVal ch).map b64ExtChar⟩

/-- The raw byte content of an access token, obtained exactly as the source
does in `_getSessionElementId` and `_getSessionListId`:
`base64ToUint8Array(base64UrlToBase64(accessToken))`.  `none` models the
decoding exception of the encoding helpers. -/
def rawBytes (token : String) : Option (List Nat) :=
  (base64UrlToBase64 token).bind base64ToUint8Array

/-- Black-box cryptographic primitives consumed by the facade; out of scope
per the specification, hence abstract parameters of the embedding. -/
structure Crypto where
  hashBytes : List Nat → List Nat
  generateKeyFromPassphrase : String → List Nat → Nat
  decryptKey : Nat → Nat → Nat
  encryptString : Nat → String → List Nat

/-- Source `_getSessionElementId`: decode the token, drop the first
`GENERATED_ID_BYTES_LENGTH` bytes, hash the remainder, base64 encode and
convert to url-safe base64. -/
def getSessionElementId (c : Crypto) (token : String) : Option String :=
  (rawBytes token).map fun bs =>
    base64ToBase64Url (uint8ArrayToBase64 (c.hashBytes (bs.drop GENERATED_ID_BYTES_LENGTH)))

/-- Source `_getSessionListId`: decode the token, keep the first
`GENERATED_ID_BYTES_LENGTH` bytes, base64 encode and convert to the
extended identifier alphabet. -/
def getSessionListId (token : String) : Option String :=
  (rawBytes token).map fun bs =>
    base64ToBase64Ext (uint8ArrayToBase64 (bs.take GENERATED_ID_BYTES_LENGTH))

/-- The url-safe base64 encoding of a byte list, as the spec names it. -/
def urlSafeBase64 (bs : List Nat) : String := base64ToBase64Url (uint8ArrayToBase64 bs)

/-- The extended base64 encoding of a byte list, as the spec names it. -/
def extendedBase64 (bs : List Nat) : String := base64ToBase64Ext (uint8ArrayToBase64 bs)

/-- The element id as the spec formula states it:
`elementId = urlSafeBase64(hash(rawBytes(token)[prefixLen:]))`. -/
def specElementId (c : Crypto) (token : String) : Option String :=
  (rawBytes token).map fun bs => urlSafeBase64 (c.hashBytes (bs.drop GENERATED_ID_BYTES_LENGTH))

/-- The list id as the spec formula states it:
`listId = extendedBase64(rawBytes(token)[:prefixLen])`. -/
def specListId (token : String) : Option String :=
  (rawBytes token).map fun bs => extendedBase64 (bs.take GENERATED_ID_BYTES_LENGTH)

/-- A concrete instantiation of the abstract crypto primitives, used to
evaluate the facade on concrete inputs. -/
def testCrypto : Crypto where
  hashBytes := fun bs => bs
  generateKeyFromPassphrase := fun _ _ => 7
  decryptKey := fun k w => k + w
  encryptString := fun _ _ => []

/-- Error identities of the failure taxonomy; each constructor stands for
one distinct exception class of the source (`NotAuthenticatedError`,
`ConnectionError`, the plain errors thrown by the user guard, the
external-login guard and the membership lookup, decoding exceptions of the
encoding helpers, a crash on a missing user, and any other server-side
failure). -/
inductive Err where
  | notAuthenticated
  | connectionError
  | differentUser
  | alreadyLoggedIn
  | noMembership
  | notLoggedIn
  | decodingError
  | serverError
  deriving DecidableEq

/-- Observable external actions of the facade, recorded as a trace in the
order the source performs them. -/
inductive Ev where
  | saltRequest
  | sessionRequest
  | pendingNotification
  | pollResult (pending : Bool)
  | loadUser
  | loadGroupInfo
  | loadEntropy
  | receiveInfo
  | connect
  | closeEventBus
  | storeEntropy
  | deleteRequest
  | resetEv
  deriving DecidableEq

/-- Source `GroupMembership`: group id and the group key wrapped under the
user-group key (`symEncGKey`). -/
structure GroupMembership where
  group : String
  symEncGKey : Nat
  deriving DecidableEq

/-- Source user-group data: group id, wrapped group key and group-info id. -/
structure UserGroup where
  group : String
  symEncGKey : Nat
  groupInfo : String
  deriving DecidableEq

/-- Source `User`: id, own group, memberships and account type
(`AccountType.EXTERNAL` is 5). -/
structure User where
  id : String
  userGroup : UserGroup
  memberships : List GroupMembership
  accountType : Nat
  deriving DecidableEq

/-- Source `GroupInfo` record, kept abstract: only its identity matters. -/
structure GroupInfo where
  id : String
  deriving DecidableEq

/-- The mutable fields of the source `LoginFacade`; `eventBusConnected`
models whether the current `EventBusClient` has an open connection. -/
structure FacadeState where
  user : Option User
  userGroupInfo : Option GroupInfo
  accessToken : Option String
  authVerifierAfterNextRequest : Option String
  groupKeys : List (String × Nat)
  eventBusConnected : Bool
  persistentSession : Bool
  deriving DecidableEq

/-- Source `_reset`: null out every field, close the event bus and replace
it by a fresh, unconnected client. -/
def resetState : FacadeState :=
  { user := none, userGroupInfo := none, accessToken := none,
    authVerifierAfterNextRequest := none, groupKeys := [],
    eventBusConnected := false, persistentSession := false }

/-- Source `isLoggedIn`. -/
def isLoggedIn (st : FacadeState) : Bool := st.user.isSome

/-- Source `CreateSessionReturn`: access token, user id and the list of
pending second-factor challenges (each challenge kept abstract). -/
structure CreateSessionReturn where
  accessToken : String
  user : String
  challenges : List Nat
  deriving DecidableEq

/-- Outcomes of every external collaborator call the facade can make,
injected as data: the transport requests, the entity loads, the event
stream connect, and the random access key the randomizer would produce.
`polls` is the sequence of `secondFactorPending` answers of the
second-factor status service. -/
structure Env where
  saltResult : Except Err (List Nat)
  sessionResult : Except Err CreateSessionReturn
  polls : List Bool
  randomAccessKey : Nat
  loadUser : Except Err User
  loadGroupInfo : Except Err GroupInfo
  loadEntropyResult : Except Err Unit
  infoMailsResult : Except Err Unit
  connectResult : Except Err Unit
  storeEntropyResult : Except Err Unit
  deleteResult : Except Err Unit
  userAgent : Option String

/-- The two error identities only the facade itself ever throws (the user
guard and the external-login guard); a well-formed environment never
injects them. -/
def Err.isClientOnly : Err → Bool
  | .differentUser => true
  | .alreadyLoggedIn => true
  | _ => false

/-- An injected outcome is clean when it is not one of the client-only
error identities. -/
def cleanB {α : Type} : Except Err α → Bool
  | .ok _ => true
  | .error e => !e.isClientOnly

/-- A well-formed environment: no injected outcome reuses a client-only
error identity. -/
def Env.wf (env : Env) : Bool :=
  cleanB env.saltResult && cleanB env.sessionResult && cleanB env.loadUser &&
    cleanB env.loadGroupInfo && cleanB env.loadEntropyResult &&
    cleanB env.infoMailsResult && cleanB env.connectResult

/-- One asynchronous step of `_initSession`: the event it emits and either
a failure or a state transformation. -/
def runSteps : List (Ev × Except Err (FacadeState → FacadeState)) → FacadeState →
    List Ev × Except Err Unit × FacadeState
  | [], st => ([], .ok (), st)
  | (ev, Except.error e) :: _, _ => ([ev, .resetEv], .error e, resetState)
  | (ev, Except.ok f) :: rest, st =>
    let r := runSteps rest (f st)
    (ev :: r.1, r.2.1, r.2.2)

/-- The step sequence of `_initSession` after the user guard: load the user
and cache the unwrapped user-group key, load the group info, restore the
entropy, notify the receive-info service for non-external users, connect
the event stream.  Per the source, each failure resets the facade. -/
def initSteps (c : Crypto) (env : Env) (key : Nat) :
    List (Ev × Except Err (FacadeState → FacadeState)) :=
  [(.loadUser, env.loadUser.map fun user st =>
      { st with user := some user,
                groupKeys := (user.userGroup.group, c.decryptKey key user.userGroup.symEncGKey)
                  :: st.groupKeys }),
   (.loadGroupInfo, env.loadGroupInfo.map fun gi st => { st with userGroupInfo := some gi }),
   (.loadEntropy, env.loadEntropyResult.map fun _ st => st)]
  ++ (match env.loadUser with
      | .ok u => if u.accountType == 5 then []
                 else [(.receiveInfo, env.infoMailsResult.map fun _ st => st)]
      | .error _ => [])
  ++ [(.connect, env.connectResult.map fun _ st => { st with eventBusConnected := true })]

/-- Source `_initSession`: guard against a different user, store the access
token, then run the step sequence; the guard failure leaves the state
untouched, any step failure resets it. -/
def initSession (c : Crypto) (env : Env) (st : FacadeState)
    (userId accessToken : String) (key : Nat) :
    List Ev × Except Err Unit × FacadeState :=
  match st.user with
  | some u =>
    if userId != u.id then ([], .error .differentUser, st)
    else runSteps (initSteps c env key) { st with accessToken := some accessToken }
  | none => runSteps (initSteps c env key) { st with accessToken := some accessToken }

/-- The response handling of `deleteSession`: the source treats the server
answer `NotAuthenticatedError` as success (session already gone) and lets
every other failure propagate. -/
def deleteResponse (env : Env) : Except Err Unit :=
  match env.deleteResult with
  | .error Err.notAuthenticated => .ok ()
  | r => r

/-- The DELETE request of `deleteSession`: addressed by the identifiers
derived from the token, authenticated by the very token being deleted. -/
structure DeleteRequest where
  listId : String
  elementId : String
  headerToken : String
  deriving DecidableEq

/-- Source `deleteSession`: derive the session address from the token (a
synchronous decoding failure, the outer `error`, escapes before any
request), issue the DELETE with the token itself in the header, and map an
unauthenticated answer to success. -/
def deleteSession (c : Crypto) (env : Env) (accessToken : String) :
    Except Err (DeleteRequest × Except Err Unit) :=
  match getSessionListId accessToken, getSessionElementId c accessToken with
  | some lid, some eid =>
    .ok ({ listId := lid, elementId := eid, headerToken := accessToken }, deleteResponse env)
  | _, _ => .error .decodingError

/-- The session record address and outcome actually sent by
`deleteSession`, `none` when the token does not decode. -/
def deleteHeaderToken (c : Crypto) (env : Env) (token : String) : Option String :=
  match deleteSession c env token with
  | .ok (req, _) => some req.headerToken
  | .error _ => none

/-- The result the caller of `deleteSession` observes: the response
outcome, or the synchronous decoding failure. -/
def deleteOutcome (c : Crypto) (env : Env) (token : String) : Except Err Unit :=
  match deleteSession c env token with
  | .ok (_, res) => res
  | .error e => .error e

/-- Source `logout`: a no-op when not logged in; otherwise close the event
bus first, persist entropy best-effort (failures swallowed), then — only
for non-persistent sessions — delete the session server-side, and reset.
A synchronous decoding failure thrown while building the delete request
escapes before the reset callback is installed, so the state survives it;
a server-side delete failure still resets and then re-raises.  This helper
is the delete-then-reset tail of `logout` for a non-persistent session,
applied to the stored access token. -/
def logoutDelete (c : Crypto) (env : Env) (st1 : FacadeState) :
    Option String → List Ev × Except Err Unit × FacadeState
  | none => ([.closeEventBus, .storeEntropy], .error .decodingError, st1)
  | some tok =>
    match deleteSession c env tok with
    | .error e => ([.closeEventBus, .storeEntropy], .error e, st1)
    | .ok (_, Except.error e) =>
      ([.closeEventBus, .storeEntropy, .deleteRequest, .resetEv], .error e, resetState)
    | .ok (_, Except.ok _) =>
      ([.closeEventBus, .storeEntropy, .deleteRequest, .resetEv], .ok (), resetState)

/-- Source `logout`: a no-op when not logged in; otherwise close the event
bus first, persist entropy best-effort (failures swallowed; the trace
records the attempt), then — only for non-persistent sessions — delete the
session server-side via `logoutDelete`, and reset. -/
def logout (c : Crypto) (env : Env) (st : FacadeState) :
    List Ev × Except Err Unit × FacadeState :=
  match st.user with
  | none => ([], .ok (), st)
  | some _ =>
    let st1 := { st with eventBusConnected := false }
    if st1.persistentSession then
      ([.closeEventBus, .storeEntropy, .resetEv], .ok (), resetState)
    else
      logoutDelete c env st1 st1.accessToken

/-- Lookup in the group-key cache (a javascript object keyed by group id in
the source). -/
def lookupKey (g : String) (l : List (String × Nat)) : Option Nat :=
  (l.find? fun p => p.1 == g).map (·.2)

/-- Source `getGroupKey` (with `_getMembership`): return the cached key if
present; otherwise find the membership (failing without one), unwrap its
wrapped key under the cached user-group key, cache and return it.  The
boolean records whether the unwrap-and-derive step ran. -/
def getGroupKey (c : Crypto) (st : FacadeState) (g : String) :
    Except Err (Nat × FacadeState × Bool) :=
  match lookupKey g st.groupKeys with
  | some k => .ok (k, st, false)
  | none =>
    match st.user with
    | none => .error .notLoggedIn
    | some u =>
      match u.memberships.find? fun m => m.group == g with
      | none => .error .noMembership
      | some m =>
        match lookupKey u.userGroup.group st.groupKeys with
        | none => .error .notLoggedIn
        | some ugk =>
          let k := c.decryptKey ugk m.symEncGKey
          .ok (k, { st with groupKeys := (g, k) :: st.groupKeys }, true)

/-- The result a caller of `createSession` observes: success, failure, or a
future that never completes (a second-factor wait that is never approved). -/
inductive LoginResult (α : Type) where
  | ok (a : α)
  | err (e : Err)
  | diverge
  deriving DecidableEq

/-- Source `Credentials` as returned by a persistent session creation. -/
structure Credentials where
  mailAddress : String
  accessToken : String
  encryptedPassword : String
  deriving DecidableEq

/-- The record `createSession` and `createExternalSession` resolve with. -/
structure CreateSessionOutput where
  user : Option User
  userGroupInfo : Option GroupInfo
  sessionElementId : String
  credentials : Option Credentials
  deriving DecidableEq

/-- Prefix a trace onto the result of a later stage. -/
def prependTrace {α β : Type} (pre : List Ev) (r : List Ev × α × β) : List Ev × α × β :=
  (pre ++ r.1, r.2.1, r.2.2)

/-- The recursive second-factor poll `_waitUntilSecondFactorApproved`: ask
for the status, recurse while pending.  Returns the trace of poll answers
and whether the wait ever resolves; exhausting the injected answers models
a wait that never completes. -/
def pollLoop : List Bool → List Ev × Bool
  | [] => ([], false)
  | true :: rest =>
    (Ev.pollResult true :: (pollLoop rest).1, (pollLoop rest).2)
  | false :: _ => ([Ev.pollResult false], true)

/-- The shared tail of both session creations: run `_initSession`, then
build the resolution record (element id derived from the stored token,
credentials only when an access key was generated). -/
def finishCreate (c : Crypto) (env : Env) (st0 : FacadeState)
    (mailAddress passphrase : String) (accessKey : Option Nat)
    (ret : CreateSessionReturn) (key : Nat) :
    List Ev × LoginResult CreateSessionOutput × FacadeState :=
  match initSession c env st0 ret.user ret.accessToken key with
  | (tr, Except.error e, st1) => (tr, .err e, st1)
  | (tr, Except.ok _, st1) =>
    match st1.accessToken.bind (getSessionElementId c) with
    | none => (tr, .err .decodingError, st1)
    | some eid =>
      (tr,
       .ok { user := st1.user, userGroupInfo := st1.userGroupInfo,
             sessionElementId := eid,
             credentials := accessKey.map fun ak =>
               { mailAddress := mailAddress,
                 accessToken := st1.accessToken.getD "",
                 encryptedPassword := uint8ArrayToBase64 (c.encryptString ak passphrase) } },
       st1)

/-- Whether the user agent is the known-buggy legacy browser: the source
checks `navigator.userAgent.indexOf("Trident/7.0") != -1`. -/
def containsSub (pat : List Char) : List Char → Bool
  | [] => pat.isEmpty
  | c :: rest => pat.isPrefixOf (c :: rest) || containsSub pat rest

/-- The legacy-browser test of the `createSession` connection-error
workaround. -/
def tridentUA : Option String → Bool
  | none => false
  | some ua => containsSub "Trident/7.0".data ua.data

/-- Source `createSession`: record the persistence request, fetch the salt
and derive the passphrase key, create the session (remapping a connection
failure to an unauthenticated failure only on the legacy browser), then —
when the server answers with pending challenges — derive the session
address (a decoding failure escapes here), notify the caller and poll
until approval before running `_initSession` and resolving. -/
def createSession (c : Crypto) (env : Env) (st : FacadeState)
    (mailAddress passphrase clientIdentifier : String) (returnCredentials : Bool) :
    List Ev × LoginResult CreateSessionOutput × FacadeState :=
  let st0 := { st with persistentSession := returnCredentials }
  match env.saltResult with
  | .error e => ([.saltRequest], .err e, st0)
  | .ok salt =>
    let key := c.generateKeyFromPassphrase passphrase salt
    let accessKey := if returnCredentials then some env.randomAccessKey else none
    match env.sessionResult with
    | .error e =>
      if e = Err.connectionError ∧ tridentUA env.userAgent = true then
        ([.saltRequest, .sessionRequest], .err .notAuthenticated, st0)
      else ([.saltRequest, .sessionRequest], .err e, st0)
    | .ok ret =>
      if ret.challenges.isEmpty then
        prependTrace [.saltRequest, .sessionRequest]
          (finishCreate c env st0 mailAddress passphrase accessKey ret key)
      else
        match rawBytes ret.accessToken with
        | none => ([.saltRequest, .sessionRequest], .err .decodingError, st0)
        | some _ =>
          if (pollLoop env.polls).2 then
            prependTrace
              ([.saltRequest, .sessionRequest, .pendingNotification] ++ (pollLoop env.polls).1)
              (finishCreate c env st0 mailAddress passphrase accessKey ret key)
          else
            ([.saltRequest, .sessionRequest, .pendingNotification] ++ (pollLoop env.polls).1,
              .diverge, st0)

/-- Source `createExternalSession`: refuse outright (before any request and
before any mutation) when any user is logged in; otherwise derive the key
from the supplied salt and create the session — no persistence flag is
recorded, no second-factor handling and no legacy-browser remap exist on
this path. -/
def createExternalSession (c : Crypto) (env : Env) (st : FacadeState)
    (userId passphrase : String) (salt : List Nat) (clientIdentifier : String)
    (returnCredentials : Bool) :
    List Ev × LoginResult CreateSessionOutput × FacadeState :=
  match st.user with
  | some _ => ([], .err .alreadyLoggedIn, st)
  | none =>
    let key := c.generateKeyFromPassphrase passphrase salt
    let accessKey := if returnCredentials then some env.randomAccessKey else none
    match env.sessionResult with
    | .error e => ([.sessionRequest], .err e, st)
    | .ok ret =>
      prependTrace [.sessionRequest]
        (finishCreate c env st userId passphrase accessKey ret key)

/-- Sample user for concrete evaluations. -/
def uA : User :=
  { id := "u1",
    userGroup := { group := "ug", symEncGKey := 11, groupInfo := "gi" },
    memberships := [{ group := "g1", symEncGKey := 21 }],
    accountType := 0 }

/-- Sample group info for concrete evaluations. -/
def giA : GroupInfo := { id := "gi" }

/-- An environment where every collaborator call succeeds. -/
def envOk : Env :=
  { saltResult := .ok [],
    sessionResult := .ok { accessToken := "AAAAAAAAAAAABBBB", user := "u1", challenges := [] },
    polls := [],
    randomAccessKey := 3,
    loadUser := .ok uA,
    loadGroupInfo := .ok giA,
    loadEntropyResult := .ok (),
    infoMailsResult := .ok (),
    connectResult := .ok (),
    storeEntropyResult := .ok (),
    deleteResult := .ok (),
    userAgent := none }

example : (createSession testCrypto envOk resetState "a@b.c" "pw" "cid" false).2.2.user
    = some uA := rfl
example : isLoggedIn (createSession testCrypto envOk resetState "a@b.c" "pw" "cid" false).2.2
    = true := rfl
example :
    (logout testCrypto envOk
      (createSession testCrypto envOk resetState "a@b.c" "pw" "cid" false).2.2).2.2
    = resetState := rfl

/- ### Helper lemmas -/

theorem lookupKey_cons_self (g : String) (k : Nat) (l : List (String × Nat)) :
    lookupKey g ((g, k) :: l) = some k := by
  simp [lookupKey]

theorem runSteps_error_state (steps : List (Ev × Except Err (FacadeState → FacadeState))) :
    ∀ (st : FacadeState) (e : Err),
      (runSteps steps st).2.1 = .error e → (runSteps steps st).2.2 = resetState := by
  induction steps with
  | nil => intro st e h; simp [runSteps] at h
  | cons p rest ih =>
    obtain ⟨ev, x⟩ := p
    cases x with
    | error e0 => intro st e h; simp [runSteps]
    | ok f =>
      intro st e h
      simp only [runSteps] at h ⊢
      exact ih (f st) e h

/-- All steps of a list carry clean outcomes. -/
def stepsClean (steps : List (Ev × Except Err (FacadeState → FacadeState))) : Bool :=
  steps.all fun p => cleanB p.2

theorem cleanB_map {α β : Type} (f : α → β) (x : Except Err α) :
    cleanB (x.map f) = cleanB x := by
  cases x <;> rfl

theorem runSteps_error_clean (steps : List (Ev × Except Err (FacadeState → FacadeState))) :
    ∀ (st : FacadeState) (e : Err), stepsClean steps = true →
      (runSteps steps st).2.1 = .error e → e.isClientOnly = false := by
  induction steps with
  | nil => intro st e _ h; simp [runSteps] at h
  | cons p rest ih =>
    obtain ⟨ev, x⟩ := p
    cases x with
    | error e0 =>
      intro st e hc h
      simp only [runSteps] at h
      simp only [stepsClean, List.all_cons, Bool.and_eq_true] at hc
      have he : e0 = e := by simpa using h
      subst he
      simpa [cleanB] using hc.1
    | ok f =>
      intro st e hc h
      simp only [runSteps] at h
      simp only [stepsClean, List.all_cons, Bool.and_eq_true] at hc
      exact ih (f st) e (by simpa [stepsClean] using hc.2) h

theorem env_wf_fields (env : Env) (h : env.wf = true) :
    cleanB env.saltResult = true ∧ cleanB env.sessionResult = true ∧
      cleanB env.loadUser = true ∧ cleanB env.loadGroupInfo = true ∧
      cleanB env.loadEntropyResult = true ∧ cleanB env.infoMailsResult = true ∧
      cleanB env.connectResult = true := by
  simp only [Env.wf, Bool.and_eq_true] at h
  tauto

theorem initSteps_clean (c : Crypto) (env : Env) (key : Nat) (h : env.wf = true) :
    stepsClean (initSteps c env key) = true := by
  obtain ⟨-, -, h3, h4, h5, h6, h7⟩ := env_wf_fields env h
  simp only [stepsClean, initSteps, List.all_append, List.all_cons, List.all_nil,
    Bool.and_eq_true, cleanB_map]
  repeat' apply And.intro
  all_goals
    first
    | exact h3
    | exact h4
    | exact h5
    | exact h7
    | trivial
    | (cases henv : env.loadUser with
        | error e => simp
        | ok u => by_cases hext : u.accountType == 5 <;> simp [hext, cleanB_map, h6])

theorem pollLoop_mem_pollResult (ps : List Bool) :
    ∀ e : Ev, e ∈ (pollLoop ps).1 → ∃ b, e = Ev.pollResult b := by
  induction ps with
  | nil => intro e h; simp [pollLoop] at h
  | cons p rest ih =>
    intro e h
    cases p with
    | true =>
      simp only [pollLoop, List.mem_cons] at h
      rcases h with h | h
      · exact ⟨true, h⟩
      · exact ih e h
    | false =>
      simp only [pollLoop, List.mem_singleton] at h
      exact ⟨false, h⟩

theorem pollLoop_approved_iff (ps : List Bool) :
    (pollLoop ps).2 = true ↔ false ∈ ps := by
  induction ps with
  | nil => simp [pollLoop]
  | cons p rest ih =>
    cases p with
    | true => simpa [pollLoop] using ih
    | false => simp [pollLoop]

theorem pollLoop_getLast (ps : List Bool) (h : (pollLoop ps).2 = true) :
    (pollLoop ps).1.getLast? = some (Ev.pollResult false) := by
  induction ps with
  | nil => simp [pollLoop] at h
  | cons p rest ih =>
    cases p with
    | false => simp [pollLoop]
    | true =>
      simp only [pollLoop] at h ⊢
      have hlast := ih h
      have hne : (pollLoop rest).1 ≠ [] := by
        intro h0
        rw [h0] at hlast
        simp at hlast
      obtain ⟨x, xs, hx⟩ := List.exists_cons_of_ne_nil hne
      rw [hx, List.getLast?_cons_cons, ← hx]
      exact hlast

theorem finishCreate_ne_diverge (c : Crypto) (env : Env) (st0 : FacadeState)
    (ma pw : String) (ak : Option Nat) (ret : CreateSessionReturn) (key : Nat) :
    (finishCreate c env st0 ma pw ak ret key).2.1 ≠ .diverge := by
  rcases hr : initSession c env st0 ret.user ret.accessToken key with ⟨tr, r, st1⟩
  cases r with
  | error e => simp [finishCreate, hr]
  | ok u =>
    cases he : st1.accessToken.bind (getSessionElementId c) <;>
      simp [finishCreate, hr, he]

theorem finishCreate_err_cases (c : Crypto) (env : Env) (st0 : FacadeState)
    (ma pw : String) (ak : Option Nat) (ret : CreateSessionReturn) (key : Nat) (e : Err)
    (h : (finishCreate c env st0 ma pw ak ret key).2.1 = .err e) :
    e = .decodingError ∨ (initSession c env st0 ret.user ret.accessToken key).2.1 = .error e := by
  rcases hr : initSession c env st0 ret.user ret.accessToken key with ⟨tr, r, st1⟩
  cases r with
  | error e0 =>
    rw [finishCreate, hr] at h
    dsimp only at h
    simp only [LoginResult.err.injEq] at h
    subst h
    exact Or.inr rfl
  | ok u =>
    rw [finishCreate, hr] at h
    dsimp only at h
    cases he : st1.accessToken.bind (getSessionElementId c) with
    | none =>
      rw [he] at h
      dsimp only at h
      simp only [LoginResult.err.injEq] at h
      exact Or.inl h.symm
    | some eid =>
      rw [he] at h
      simp at h

theorem initSession_error_cases (c : Crypto) (env : Env) (st : FacadeState)
    (uid tok : String) (key : Nat) (e : Err) (hwf : env.wf = true)
    (h : (initSession c env st uid tok key).2.1 = .error e) :
    e = .differentUser ∨ e.isClientOnly = false := by
  unfold initSession at h
  cases hu : st.user with
  | none =>
    rw [hu] at h
    dsimp only at h
    exact Or.inr (runSteps_error_clean _ _ e (initSteps_clean c env key hwf) h)
  | some u =>
    rw [hu] at h
    dsimp only at h
    by_cases hid : (uid != u.id) = true
    · rw [if_pos hid] at h
      have h2 : Err.differentUser = e := by simpa using h
      exact Or.inl h2.symm
    · rw [if_neg hid] at h
      exact Or.inr (runSteps_error_clean _ _ e (initSteps_clean c env key hwf) h)

theorem createSession_head_salt (c : Crypto) (env : Env) (st : FacadeState)
    (ma pw cid : String) (rc : Bool) :
    (createSession c env st ma pw cid rc).1.head? = some Ev.saltRequest := by
  unfold createSession
  repeat' split
  all_goals simp [prependTrace]

theorem createSession_ne_alreadyLoggedIn (c : Crypto) (env : Env) (st : FacadeState)
    (ma pw cid : String) (rc : Bool) (hwf : env.wf = true) :
    (createSession c env st ma pw cid rc).2.1 ≠ .err .alreadyLoggedIn := by
  obtain ⟨w1, w2, -⟩ := env_wf_fields env hwf
  intro habs
  unfold createSession at habs
  cases hsalt : env.saltResult with
  | error e =>
    rw [hsalt] at habs
    dsimp only at habs
    have he : e = Err.alreadyLoggedIn := by simpa using habs
    subst he
    rw [hsalt] at w1
    simp [cleanB, Err.isClientOnly] at w1
  | ok salt =>
    rw [hsalt] at habs
    dsimp only at habs
    cases hsess : env.sessionResult with
    | error e =>
      rw [hsess] at habs
      dsimp only at habs
      by_cases hc : e = Err.connectionError ∧ tridentUA env.userAgent = true
      · rw [if_pos hc] at habs
        simp at habs
      · rw [if_neg hc] at habs
        have he : e = Err.alreadyLoggedIn := by simpa using habs
        subst he
        rw [hsess] at w2
        simp [cleanB, Err.isClientOnly] at w2
    | ok ret =>
      rw [hsess] at habs
      dsimp only at habs
      have fc : ∀ pre st0,
          (prependTrace pre (finishCreate c env st0 ma pw
            (if rc = true then some env.randomAccessKey else none) ret
            (c.generateKeyFromPassphrase pw salt))).2.1
            = LoginResult.err Err.alreadyLoggedIn → False := by
        intro pre st0 hfc
        simp only [prependTrace] at hfc
        rcases finishCreate_err_cases c env st0 ma pw _ ret _ _ hfc with h | h
        · cases h
        · rcases initSession_error_cases c env st0 ret.user ret.accessToken _ _ hwf h
            with h2 | h2
          · cases h2
          · simp [Err.isClientOnly] at h2
      by_cases hch : ret.challenges.isEmpty = true
      · rw [if_pos hch] at habs
        exact fc _ _ habs
      · rw [if_neg hch] at habs
        cases hrb : rawBytes ret.accessToken with
        | none =>
          rw [hrb] at habs
          simp at habs
        | some bs =>
          rw [hrb] at habs
          by_cases hp : (pollLoop env.polls).2 = true
          · rw [if_pos hp] at habs
            exact fc _ _ habs
          · rw [if_neg hp] at habs
            simp at habs

example : rawBytes "AA" = some [0] := rfl
example : getSessionListId "AA" = some "00" := rfl
example : getSessionElementId testCrypto "AA" = some "" := rfl
example : rawBytes "AAAAAAAAAAAA" = some [0, 0, 0, 0, 0, 0, 0, 0, 0] := rfl
example : rawBytes "!!" = none := rfl

/- ### Claim theorems -/

/-- C1: For every access token, the session address is computed
deterministically from the token alone: the element id equals the url-safe
base64 of the hash of the raw token bytes after the fixed prefix length,
and the list id equals the extended base64 of the first prefix-length raw
bytes.  Both sides are pure functions of the token, so the same token
always yields the same (listId, elementId) pair. -/
theorem sessionAddress_matches_spec (c : Crypto) (token : String) :
    getSessionElementId c token = specElementId c token ∧
    getSessionListId token = specListId token :=
  ⟨rfl, rfl⟩

/-- C8 counterexample: the token "AA" is valid base64url but decodes to a
single byte, fewer than the nine-byte prefix length; the claim says the
session-address computation must fail with a decoding error on such a
token, yet both identifiers are produced (the prefix slice is truncated
and the hashed remainder is empty). -/
theorem shortToken_still_addressed :
    rawBytes "AA" = some [0] ∧
    getSessionListId "AA" = some "00" ∧
    getSessionElementId testCrypto "AA" = some "" :=
  ⟨rfl, rfl, rfl⟩

/-- C8 (amended): the session-address computation fails with a decoding
error exactly when the token is not valid base64url; a well-formed token
whose byte content is shorter than the prefix length still yields an
address (truncated prefix slice, hash of the empty remainder). -/
theorem sessionAddress_fails_iff_undecodable (c : Crypto) (token : String) :
    ((getSessionElementId c token).isNone ↔ (rawBytes token).isNone) ∧
    ((getSessionListId token).isNone ↔ (rawBytes token).isNone) := by
  cases h : rawBytes token <;> simp [getSessionElementId, getSessionListId, h]

/-- An environment whose salt fetch fails with a connection error. -/
def envSaltFail : Env := { envOk with saltResult := .error .connectionError }

/-- C2 counterexample: a `createSession` run with `returnCredentials = true`
whose salt fetch fails is a failed login, yet the persistent-session flag —
set at the start of `createSession`, before any request — survives, so not
all facade state is cleared before the error is re-raised. -/
theorem createSession_failure_keeps_persistentFlag :
    (createSession testCrypto envSaltFail resetState "a@b.c" "pw" "cid" true).2.1
      = LoginResult.err Err.connectionError ∧
    (createSession testCrypto envSaltFail resetState "a@b.c" "pw" "cid" true).2.2.persistentSession
      = true :=
  ⟨rfl, rfl⟩

/-- C2 (amended): every failure inside the asynchronous step sequence of
`_initSession` — that is, past the user-id guard — clears all facade state
before the error is re-raised: afterwards no user, no group info, no access
token, no group keys and no persistent-session flag remain set.  (Failures
before `_initSession`, and the guard failure itself, do not trigger this
reset.) -/
theorem initSession_failure_resets (c : Crypto) (env : Env) (st : FacadeState)
    (uid tok : String) (key : Nat) (e : Err)
    (hg : ∀ u, st.user = some u → uid = u.id)
    (h : (initSession c env st uid tok key).2.1 = .error e) :
    (initSession c env st uid tok key).2.2 = resetState ∧
    (initSession c env st uid tok key).2.2.user = none ∧
    (initSession c env st uid tok key).2.2.userGroupInfo = none ∧
    (initSession c env st uid tok key).2.2.accessToken = none ∧
    (initSession c env st uid tok key).2.2.groupKeys = [] ∧
    (initSession c env st uid tok key).2.2.persistentSession = false := by
  have hreset : (initSession c env st uid tok key).2.2 = resetState := by
    cases hu : st.user with
    | none =>
      unfold initSession at h ⊢
      rw [hu] at h ⊢
      dsimp only at h ⊢
      exact runSteps_error_state _ _ e h
    | some u =>
      unfold initSession at h ⊢
      rw [hu] at h ⊢
      dsimp only at h ⊢
      rw [if_neg (by simp [hg u hu])] at h ⊢
      exact runSteps_error_state _ _ e h
  exact ⟨hreset, by rw [hreset]; rfl, by rw [hreset]; rfl, by rw [hreset]; rfl,
    by rw [hreset]; rfl, by rw [hreset]; rfl⟩

/-- An environment whose user load fails server-side. -/
def envLoadUserFail : Env := { envOk with loadUser := .error .serverError }

/-- Witness for the amended C2 theorem: a failed user load during
`_initSession` on a fresh facade leaves the reset state. -/
theorem initSession_failure_resets_witness :
    (initSession testCrypto envLoadUserFail resetState "u1" "tok" 0).2.2 = resetState :=
  (initSession_failure_resets testCrypto envLoadUserFail resetState "u1" "tok" 0
    Err.serverError (fun u h => by simp [resetState] at h) rfl).1

/-- C3: when a user is already logged in, `_initSession` invoked with a
different user id fails with the state-conflict error and leaves the whole
state (user, group info, access token, group keys) untouched, while
`_initSession` invoked with the same user id never raises that error. -/
theorem initSession_userGuard (c : Crypto) (env : Env) (st : FacadeState)
    (u : User) (uid tok : String) (key : Nat)
    (hu : st.user = some u) (hwf : env.wf = true) :
    (uid ≠ u.id → initSession c env st uid tok key = ([], .error .differentUser, st)) ∧
    (uid = u.id → (initSession c env st uid tok key).2.1 ≠ .error .differentUser) := by
  constructor
  · intro hne
    unfold initSession
    rw [hu]
    dsimp only
    rw [if_pos (by simpa using hne)]
  · intro heq habs
    unfold initSession at habs
    rw [hu] at habs
    dsimp only at habs
    rw [if_neg (by simp [heq])] at habs
    have hclean := runSteps_error_clean _ _ _ (initSteps_clean c env key hwf) habs
    simp [Err.isClientOnly] at hclean

/-- A facade state with the sample user logged in and the user-group key
cached. -/
def stA : FacadeState :=
  { resetState with
    user := some uA,
    accessToken := some "AAAAAAAAAAAABBBB",
    groupKeys := [("ug", 5)],
    eventBusConnected := true }

/-- Witness for the C3 theorem: logging a different user id into the
sample session fails with the state-conflict error and changes nothing. -/
theorem initSession_userGuard_witness :
    initSession testCrypto envOk stA "u2" "tok" 0 = ([], .error .differentUser, stA) :=
  (initSession_userGuard testCrypto envOk stA uA "u2" "tok" 0 rfl rfl).1
    (by decide)

/-- The successful delete request of `deleteSession` on a decodable
token. -/
theorem deleteSession_of_decodes (c : Crypto) (env : Env) (tok : String) (bs : List Nat)
    (h : rawBytes tok = some bs) :
    deleteSession c env tok =
      .ok ({ listId := base64ToBase64Ext
               (uint8ArrayToBase64 (bs.take GENERATED_ID_BYTES_LENGTH)),
             elementId := base64ToBase64Url
               (uint8ArrayToBase64 (c.hashBytes (bs.drop GENERATED_ID_BYTES_LENGTH))),
             headerToken := tok }, deleteResponse env) := by
  unfold deleteSession getSessionListId getSessionElementId
  rw [h]
  rfl

/-- The first two actions of the delete-then-reset tail are closing the
event bus and the entropy persistence attempt, whatever the token and the
server answer. -/
theorem logoutDelete_take_two (c : Crypto) (env : Env) (st1 : FacadeState) (o : Option String) :
    (logoutDelete c env st1 o).1.take 2 = [Ev.closeEventBus, Ev.storeEntropy] := by
  cases o with
  | none => rfl
  | some tok =>
    simp only [logoutDelete]
    rcases hds : deleteSession c env tok with e | ⟨req, res⟩
    · try rw [hds]
      rfl
    · try rw [hds]
      cases res <;> rfl

/-- The first two logout actions while logged in: close the event bus, then
attempt entropy persistence. -/
theorem logout_take_two (c : Crypto) (env : Env) (st : FacadeState) (u : User)
    (hu : st.user = some u) :
    (logout c env st).1.take 2 = [Ev.closeEventBus, Ev.storeEntropy] := by
  unfold logout
  rw [hu]
  dsimp only
  split
  · rfl
  · exact logoutDelete_take_two c env _ _

/-- A logged-in state whose stored access token is not decodable. -/
def stBadToken : FacadeState :=
  { resetState with
    user := some uA,
    accessToken := some "!!!",
    eventBusConnected := true }

/-- C4 counterexample: a logout of a non-persistent session whose stored
access token does not decode fails while building the delete request; the
synchronous decoding error escapes before the reset callback is reached,
so the facade is still logged in afterwards — the reset is not
unconditional. -/
theorem logout_undecodableToken_skips_reset :
    (logout testCrypto envOk stBadToken).2.1 = Except.error Err.decodingError ∧
    (logout testCrypto envOk stBadToken).2.2.user = some uA ∧
    isLoggedIn (logout testCrypto envOk stBadToken).2.2 = true :=
  ⟨rfl, rfl, rfl⟩

/-- C4 (amended): logout while not logged in is a successful no-op; logout
while logged in closes the event stream before entropy persistence is
attempted, and — provided the session is persistent or its stored token is
decodable — resets the whole facade state unconditionally, even when
entropy persistence or the server-side session deletion fails: afterwards
`isLoggedIn` is false and the event stream is closed. -/
theorem logout_resets (c : Crypto) (env : Env) (st : FacadeState) :
    (st.user = none → logout c env st = ([], .ok (), st)) ∧
    (∀ u, st.user = some u →
      (logout c env st).1.take 2 = [Ev.closeEventBus, Ev.storeEntropy] ∧
      (st.persistentSession = true ∨
          (∃ tok, st.accessToken = some tok ∧ (rawBytes tok).isSome = true) →
        (logout c env st).2.2 = resetState ∧
        isLoggedIn (logout c env st).2.2 = false ∧
        (logout c env st).2.2.eventBusConnected = false)) := by
  constructor
  · intro hu
    unfold logout
    rw [hu]
  · intro u hu
    refine ⟨logout_take_two c env st u hu, ?_⟩
    intro hcase
    by_cases hp : st.persistentSession = true
    · unfold logout
      rw [hu]
      dsimp only
      rw [if_pos hp]
      exact ⟨rfl, rfl, rfl⟩
    · rcases hcase with hp2 | ⟨tok, hat, hdec⟩
      · exact absurd hp2 hp
      · obtain ⟨bs, hbs⟩ := Option.isSome_iff_exists.mp hdec
        unfold logout
        rw [hu]
        dsimp only
        rw [if_neg hp, hat]
        simp only [logoutDelete]
        rw [deleteSession_of_decodes c env tok bs hbs]
        cases hdr : deleteResponse env with
        | error e => exact ⟨rfl, rfl, rfl⟩
        | ok x => exact ⟨rfl, rfl, rfl⟩

/-- Witness for the amended C4 theorem: logging out the sample session
(valid token, delete succeeding) resets the facade. -/
theorem logout_resets_witness :
    (logout testCrypto envOk stA).2.2 = resetState ∧
    isLoggedIn (logout testCrypto envOk stA).2.2 = false :=
  have h := ((logout_resets testCrypto envOk stA).2 uA rfl).2
    (Or.inr ⟨"AAAAAAAAAAAABBBB", rfl, rfl⟩)
  ⟨h.1, h.2.1⟩

/-- C5: when the session-creation response carries at least one pending
challenge, `createSession` sends the pending notification before anything
of `_initSession` happens and before its promise can resolve (the trace
lists everything that happens up to resolution), and the promise resolves
— equivalently, does not hang forever — exactly when some subsequent poll
reports the challenge no longer pending; if no poll ever reports approval
the call diverges and `_initSession` never runs. -/
theorem createSession_secondFactorFlow (c : Crypto) (env : Env) (st : FacadeState)
    (ma pw cid : String) (rc : Bool) (salt : List Nat) (ret : CreateSessionReturn)
    (hsalt : env.saltResult = .ok salt)
    (hsess : env.sessionResult = .ok ret)
    (hch : ret.challenges ≠ [])
    (htok : (rawBytes ret.accessToken).isSome = true) :
    (∃ t2, (createSession c env st ma pw cid rc).1 =
        [Ev.saltRequest, Ev.sessionRequest, Ev.pendingNotification]
          ++ (pollLoop env.polls).1 ++ t2) ∧
    ((createSession c env st ma pw cid rc).2.1 = .diverge ↔ (pollLoop env.polls).2 = false) ∧
    ((pollLoop env.polls).2 = false → Ev.loadUser ∉ (createSession c env st ma pw cid rc).1) ∧
    ((pollLoop env.polls).2 = true →
        (pollLoop env.polls).1.getLast? = some (Ev.pollResult false)) := by
  obtain ⟨bs, hbs⟩ := Option.isSome_iff_exists.mp htok
  have hchE : ret.challenges.isEmpty = false := by
    cases hc : ret.challenges with
    | nil => exact absurd hc hch
    | cons a l => rfl
  unfold createSession
  rw [hsalt, hsess]
  dsimp only
  rw [if_neg (by simp [hchE]), hbs]
  dsimp only
  by_cases hp : (pollLoop env.polls).2 = true
  · rw [if_pos hp]
    refine ⟨?_, ?_, ?_, fun _ => pollLoop_getLast env.polls hp⟩
    · simp only [prependTrace]
      exact ⟨_, List.append_assoc _ _ _⟩
    · simp only [prependTrace, hp]
      constructor
      · intro hd
        exact absurd hd (finishCreate_ne_diverge c env _ ma pw _ ret _)
      · intro hfalse
        simp at hfalse
    · intro hfalse
      rw [hp] at hfalse
      simp at hfalse
  · have hp2 : (pollLoop env.polls).2 = false := by simpa using hp
    rw [if_neg hp]
    refine ⟨⟨[], by simp⟩, by simp [hp2], ?_, ?_⟩
    · intro _
      intro hmem
      rcases List.mem_append.mp hmem with h | h
      · simp at h
      · obtain ⟨b, hb⟩ := pollLoop_mem_pollResult env.polls _ h
        exact Ev.noConfusion hb
    · intro htrue
      rw [hp2] at htrue
      simp at htrue

/-- An environment answering with one pending challenge, whose second poll
reports approval. -/
def envPoll : Env :=
  { envOk with
    sessionResult := .ok { accessToken := "AAAAAAAAAAAABBBB", user := "u1", challenges := [1] },
    polls := [true, false] }

/-- Witness for the C5 theorem on a concrete pending-challenge run. -/
theorem createSession_secondFactorFlow_witness :
    (createSession testCrypto envPoll resetState "a@b.c" "pw" "cid" false).2.1
        = LoginResult.diverge
      ↔ (pollLoop envPoll.polls).2 = false :=
  (createSession_secondFactorFlow testCrypto envPoll resetState "a@b.c" "pw" "cid" false
    [] { accessToken := "AAAAAAAAAAAABBBB", user := "u1", challenges := [1] }
    rfl rfl (by simp) rfl).2.1

/-- C6: for every decodable access token, `deleteSession` authenticates the
delete request with the token being deleted itself (so it works for a
token different from the active one — the facade state is not consulted at
all), and when the server reports the token as already unauthenticated the
operation completes successfully with no error propagated. -/
theorem deleteSession_tolerates_invalidated (c : Crypto) (env : Env) (token : String)
    (h : (rawBytes token).isSome = true) :
    deleteHeaderToken c env token = some token ∧
    (env.deleteResult = .error .notAuthenticated → deleteOutcome c env token = .ok ()) := by
  obtain ⟨bs, hbs⟩ := Option.isSome_iff_exists.mp h
  have hds := deleteSession_of_decodes c env token bs hbs
  constructor
  · unfold deleteHeaderToken
    rw [hds]
  · intro hna
    unfold deleteOutcome
    rw [hds]
    dsimp only
    unfold deleteResponse
    rw [hna]

/-- C7: group-key lookup is idempotent: whenever a lookup succeeds, looking
the same group up again in the resulting state returns the very same key
without running the unwrap-and-derive step again (the boolean component is
false on the second call); and when the group id is neither cached nor a
membership of the active user, the lookup fails. -/
theorem getGroupKey_idempotent (c : Crypto) (st : FacadeState) (g : String) :
    (∀ k st2 d, getGroupKey c st g = .ok (k, st2, d) →
        getGroupKey c st2 g = .ok (k, st2, false)) ∧
    (∀ u, st.user = some u → lookupKey g st.groupKeys = none →
        u.memberships.find? (fun m => m.group == g) = none →
        getGroupKey c st g = .error .noMembership) := by
  constructor
  · intro k st2 d h
    unfold getGroupKey at h
    split at h
    · rename_i k0 hl
      obtain ⟨hk, hst, hd⟩ : k0 = k ∧ st = st2 ∧ false = d := by simpa using h
      subst hk
      subst hst
      unfold getGroupKey
      rw [hl]
    · split at h
      · simp at h
      · split at h
        · simp at h
        · split at h
          · simp at h
          · injection h with h1
            obtain ⟨hk, h2⟩ := Prod.ext_iff.mp h1
            obtain ⟨hst, hd⟩ := Prod.ext_iff.mp h2
            subst hk
            subst hst
            unfold getGroupKey
            dsimp only
            rw [lookupKey_cons_self]
  · intro u hu hl hm
    unfold getGroupKey
    rw [hl]
    dsimp only
    rw [hu]
    dsimp only
    rw [hm]

/-- The state after the first group-key lookup of the witness: the derived
key for group g1 has been cached in front. -/
def stA2 : FacadeState := { stA with groupKeys := [("g1", 26), ("ug", 5)] }

/-- Witness for the C7 theorem: looking up the sample membership twice
derives once, then serves the cached key. -/
theorem getGroupKey_idempotent_witness :
    getGroupKey testCrypto stA "g1" = .ok (26, stA2, true) ∧
    getGroupKey testCrypto stA2 "g1" = .ok (26, stA2, false) :=
  ⟨rfl, (getGroupKey_idempotent testCrypto stA "g1").1 26 stA2 true rfl⟩

/-- C9: when the session-creation request fails with a transport-level
connection error, `createSession` reports the unauthenticated error exactly
when the user agent is the known-buggy legacy browser (its string contains
the legacy marker); on every other platform the raw connection error is
propagated unchanged. -/
theorem createSession_tridentRemap (c : Crypto) (env : Env) (st : FacadeState)
    (ma pw cid : String) (rc : Bool) (salt : List Nat)
    (hsalt : env.saltResult = .ok salt)
    (hsess : env.sessionResult = .error .connectionError) :
    ((createSession c env st ma pw cid rc).2.1 = .err .notAuthenticated
        ↔ tridentUA env.userAgent = true) ∧
    (tridentUA env.userAgent = false →
        (createSession c env st ma pw cid rc).2.1 = .err .connectionError) := by
  unfold createSession
  rw [hsalt, hsess]
  dsimp only
  by_cases ht : tridentUA env.userAgent = true
  · rw [if_pos ⟨rfl, ht⟩]
    exact ⟨⟨fun _ => ht, fun _ => rfl⟩, fun hf => absurd ht (by simp [hf])⟩
  · have ht2 : tridentUA env.userAgent = false := by simpa using ht
    rw [if_neg (by simp [ht2])]
    refine ⟨⟨fun habs => ?_, fun htr => absurd htr ht⟩, fun _ => rfl⟩
    simp at habs

/-- An environment reporting a connection failure on the session request,
seen from the legacy browser. -/
def envIE : Env :=
  { envOk with
    sessionResult := .error .connectionError,
    userAgent := some "Mozilla/5.0 (Windows NT 6.1; Trident/7.0; rv:11.0) like Gecko" }

/-- Witness for the C9 theorem: on the legacy browser the connection
failure surfaces as the unauthenticated error. -/
theorem createSession_tridentRemap_witness :
    (createSession testCrypto envIE resetState "a@b.c" "pw" "cid" false).2.1
      = LoginResult.err Err.notAuthenticated :=
  ((createSession_tridentRemap testCrypto envIE resetState "a@b.c" "pw" "cid" false
    [] rfl rfl).1).mpr rfl

/-- C10: `createExternalSession` fails immediately whenever any user is
already logged in — the user id argument is arbitrary, covering the
same-user case — issuing no request and mutating nothing, whereas
`createSession` in the same state proceeds (its first action is the salt
request) and never fails with the already-logged-in error: its same-user
check is deferred to `_initSession`. -/
theorem createExternalSession_rejects (c : Crypto) (env : Env) (st : FacadeState) (u : User)
    (uid pw cid ma : String) (salt : List Nat) (rc : Bool)
    (hu : st.user = some u) (hwf : env.wf = true) :
    createExternalSession c env st uid pw salt cid rc = ([], .err .alreadyLoggedIn, st) ∧
    (createSession c env st ma pw cid rc).1.head? = some Ev.saltRequest ∧
    (createSession c env st ma pw cid rc).2.1 ≠ .err .alreadyLoggedIn := by
  refine ⟨?_, createSession_head_salt c env st ma pw cid rc,
    createSession_ne_alreadyLoggedIn c env st ma pw cid rc hwf⟩
  unfold createExternalSession
  rw [hu]

/-- Witness for the C10 theorem: with the sample user logged in, an
external login for the very same user id is rejected outright while a
password login still starts with the salt request. -/
theorem createExternalSession_rejects_witness :
    createExternalSession testCrypto envOk stA "u1" "pw" [] "cid" false
      = ([], .err .alreadyLoggedIn, stA) ∧
    (createSession testCrypto envOk stA "a@b.c" "pw" "cid" false).1.head?
      = some Ev.saltRequest :=
  have h := createExternalSession_rejects testCrypto envOk stA uA
    "u1" "pw" "cid" "a@b.c" [] false rfl rfl
  ⟨h.1, h.2.1⟩

/-- An environment whose delete request is answered with the
not-authenticated failure (session already gone). -/
def envDelGone : Env := { envOk with deleteResult := .error .notAuthenticated }

/-- Witness for the C6 theorem: deleting an already-invalidated session
with a twelve-character token succeeds and carries that token in the
header. -/
theorem deleteSession_tolerates_invalidated_witness :
    deleteHeaderToken testCrypto envDelGone "AAAAAAAAAAAA" = some "AAAAAAAAAAAA" ∧
    deleteOutcome testCrypto envDelGone "AAAAAAAAAAAA" = .ok () :=
  have h := deleteSession_tolerates_invalidated testCrypto envDelGone "AAAAAAAAAAAA" rfl
  ⟨h.1, h.2 rfl⟩
